import Mathlib

/- Verification model of the Space-Travel software renderer.

   The Rust sources `src/shaders.rs` and `src/main.rs` are embedded shallowly:
   every f32 scalar is modelled as a rational number, the f32 transcendental
   functions (sin, cos, sqrt) are passed around as an explicit `MathOps`
   record, and the FastNoiseLite sampler is modelled as a record carrying the
   configured seed, noise type and its two deterministic query functions.
   Division is the total field division of the rationals; places where the
   Rust code can divide by zero are treated explicitly in the theorems.

   The repository files `color.rs`, `vertex.rs`, `fragment.rs`,
   `framebuffer.rs`, `triangle.rs` and `camera.rs` are not part of the
   source snapshot; the types and operations taken from them are modelled
   from the design document and carry a `Modelled from the spec:` note. -/

set_option maxHeartbeats 1000000

/-- Rust `f32::clamp(lo, hi)`: restrict a scalar to the interval [lo, hi]. -/
def Rat.clamp (x lo hi : ℚ) : ℚ := min (max x lo) hi

/-- Rust `f32::powi(n)`: integer power of a scalar. -/
def Rat.powi (x : ℚ) (n : ℕ) : ℚ := x ^ n

namespace SpaceTravel

/-- nalgebra-glm `Vec2` over the rational model of f32. -/
@[ext] structure Vec2 where
  x : ℚ
  y : ℚ
deriving DecidableEq

/-- nalgebra-glm `Vec3` over the rational model of f32. -/
@[ext] structure Vec3 where
  x : ℚ
  y : ℚ
  z : ℚ
deriving DecidableEq

/-- nalgebra-glm `Vec4` over the rational model of f32. -/
@[ext] structure Vec4 where
  x : ℚ
  y : ℚ
  z : ℚ
  w : ℚ
deriving DecidableEq

/-- nalgebra-glm `Mat3`, fields row by row. -/
@[ext] structure Mat3 where
  m11 : ℚ
  m12 : ℚ
  m13 : ℚ
  m21 : ℚ
  m22 : ℚ
  m23 : ℚ
  m31 : ℚ
  m32 : ℚ
  m33 : ℚ
deriving DecidableEq

/-- nalgebra-glm `Mat4`, fields row by row, matching the row-major argument
    order of `Mat4::new` used in `main.rs`. -/
@[ext] structure Mat4 where
  m11 : ℚ
  m12 : ℚ
  m13 : ℚ
  m14 : ℚ
  m21 : ℚ
  m22 : ℚ
  m23 : ℚ
  m24 : ℚ
  m31 : ℚ
  m32 : ℚ
  m33 : ℚ
  m34 : ℚ
  m41 : ℚ
  m42 : ℚ
  m43 : ℚ
  m44 : ℚ
deriving DecidableEq

/-- nalgebra-glm `dot` on three-component vectors. -/
def dot (a b : Vec3) : ℚ := a.x * b.x + a.y * b.y + a.z * b.z

instance : Add Vec3 := ⟨fun a b => ⟨a.x + b.x, a.y + b.y, a.z + b.z⟩⟩

instance : Sub Vec3 := ⟨fun a b => ⟨a.x - b.x, a.y - b.y, a.z - b.z⟩⟩

instance : HMul Vec3 ℚ Vec3 := ⟨fun v s => ⟨v.x * s, v.y * s, v.z * s⟩⟩

instance : HMul ℚ Vec3 Vec3 := ⟨fun s v => ⟨s * v.x, s * v.y, s * v.z⟩⟩

/-- The f32 transcendental functions used by the shaders, passed explicitly:
    the embedding is parametric in the approximations the Rust standard
    library computes for sin, cos and sqrt. -/
structure MathOps where
  sin : ℚ → ℚ
  cos : ℚ → ℚ
  sqrt : ℚ → ℚ

/-- nalgebra `normalize`: divide a vector by its euclidean norm
    (the square root of its dot product with itself). -/
def Vec3.normalize (v : Vec3) (ops : MathOps) : Vec3 :=
  let n := ops.sqrt (dot v v)
  ⟨v.x / n, v.y / n, v.z / n⟩

/-- Matrix-vector product for 4x4 matrices. -/
def Mat4.mulVec (m : Mat4) (v : Vec4) : Vec4 :=
  ⟨m.m11 * v.x + m.m12 * v.y + m.m13 * v.z + m.m14 * v.w,
   m.m21 * v.x + m.m22 * v.y + m.m23 * v.z + m.m24 * v.w,
   m.m31 * v.x + m.m32 * v.y + m.m33 * v.z + m.m34 * v.w,
   m.m41 * v.x + m.m42 * v.y + m.m43 * v.z + m.m44 * v.w⟩

instance : HMul Mat4 Vec4 Vec4 := ⟨Mat4.mulVec⟩

/-- Matrix product for 4x4 matrices. -/
def Mat4.mul (a b : Mat4) : Mat4 :=
  ⟨a.m11 * b.m11 + a.m12 * b.m21 + a.m13 * b.m31 + a.m14 * b.m41,
   a.m11 * b.m12 + a.m12 * b.m22 + a.m13 * b.m32 + a.m14 * b.m42,
   a.m11 * b.m13 + a.m12 * b.m23 + a.m13 * b.m33 + a.m14 * b.m43,
   a.m11 * b.m14 + a.m12 * b.m24 + a.m13 * b.m34 + a.m14 * b.m44,
   a.m21 * b.m11 + a.m22 * b.m21 + a.m23 * b.m31 + a.m24 * b.m41,
   a.m21 * b.m12 + a.m22 * b.m22 + a.m23 * b.m32 + a.m24 * b.m42,
   a.m21 * b.m13 + a.m22 * b.m23 + a.m23 * b.m33 + a.m24 * b.m43,
   a.m21 * b.m14 + a.m22 * b.m24 + a.m23 * b.m34 + a.m24 * b.m44,
   a.m31 * b.m11 + a.m32 * b.m21 + a.m33 * b.m31 + a.m34 * b.m41,
   a.m31 * b.m12 + a.m32 * b.m22 + a.m33 * b.m32 + a.m34 * b.m42,
   a.m31 * b.m13 + a.m32 * b.m23 + a.m33 * b.m33 + a.m34 * b.m43,
   a.m31 * b.m14 + a.m32 * b.m24 + a.m33 * b.m34 + a.m34 * b.m44,
   a.m41 * b.m11 + a.m42 * b.m21 + a.m43 * b.m31 + a.m44 * b.m41,
   a.m41 * b.m12 + a.m42 * b.m22 + a.m43 * b.m32 + a.m44 * b.m42,
   a.m41 * b.m13 + a.m42 * b.m23 + a.m43 * b.m33 + a.m44 * b.m43,
   a.m41 * b.m14 + a.m42 * b.m24 + a.m43 * b.m34 + a.m44 * b.m44⟩

instance : Mul Mat4 := ⟨Mat4.mul⟩

/-- Componentwise division of a `Vec4` by a scalar. -/
def Vec4.divScalar (v : Vec4) (s : ℚ) : Vec4 := ⟨v.x / s, v.y / s, v.z / s, v.w / s⟩

instance : HDiv Vec4 ℚ Vec4 := ⟨Vec4.divScalar⟩

/-- Matrix-vector product for 3x3 matrices. -/
def Mat3.mulVec (m : Mat3) (v : Vec3) : Vec3 :=
  ⟨m.m11 * v.x + m.m12 * v.y + m.m13 * v.z,
   m.m21 * v.x + m.m22 * v.y + m.m23 * v.z,
   m.m31 * v.x + m.m32 * v.y + m.m33 * v.z⟩

instance : HMul Mat3 Vec3 Vec3 := ⟨Mat3.mulVec⟩

/-- nalgebra `transpose` for 3x3 matrices. -/
def Mat3.transpose (m : Mat3) : Mat3 :=
  ⟨m.m11, m.m21, m.m31, m.m12, m.m22, m.m32, m.m13, m.m23, m.m33⟩

/-- Determinant of a 3x3 matrix, by cofactor expansion along the first row,
    as nalgebra computes it. -/
def Mat3.det (m : Mat3) : ℚ :=
  m.m11 * (m.m22 * m.m33 - m.m23 * m.m32)
    - m.m12 * (m.m21 * m.m33 - m.m23 * m.m31)
    + m.m13 * (m.m21 * m.m32 - m.m22 * m.m31)

/-- The adjugate-over-determinant inverse formula nalgebra uses for 3x3
    matrices (meaningful when the determinant is nonzero). -/
def Mat3.inverse (m : Mat3) : Mat3 :=
  let d := m.det
  ⟨(m.m22 * m.m33 - m.m23 * m.m32) / d,
   (m.m13 * m.m32 - m.m12 * m.m33) / d,
   (m.m12 * m.m23 - m.m13 * m.m22) / d,
   (m.m23 * m.m31 - m.m21 * m.m33) / d,
   (m.m11 * m.m33 - m.m13 * m.m31) / d,
   (m.m13 * m.m21 - m.m11 * m.m23) / d,
   (m.m21 * m.m32 - m.m22 * m.m31) / d,
   (m.m12 * m.m31 - m.m11 * m.m32) / d,
   (m.m11 * m.m22 - m.m12 * m.m21) / d⟩

/-- nalgebra `try_inverse` for 3x3 matrices: `none` exactly when the
    determinant vanishes, otherwise the cofactor inverse. -/
def Mat3.try_inverse (m : Mat3) : Option Mat3 :=
  if m.det = 0 then none else some m.inverse

/-- nalgebra `Mat3::identity()`. -/
def Mat3.identity : Mat3 := ⟨1, 0, 0, 0, 1, 0, 0, 0, 1⟩

/-- nalgebra-glm `mat4_to_mat3`: the upper-left 3x3 submatrix. -/
def mat4_to_mat3 (m : Mat4) : Mat3 :=
  ⟨m.m11, m.m12, m.m13, m.m21, m.m22, m.m23, m.m31, m.m32, m.m33⟩

/-- Modelled from the spec: `color.rs` is not in the source snapshot.
    A Color is three channels (8-bit or equivalent float-normalized); the
    channels are modelled on the 0..255 scale as rationals so that scalar
    multiplication and interpolation are exact. -/
@[ext] structure Color where
  r : ℚ
  g : ℚ
  b : ℚ
deriving DecidableEq

/-- Modelled from the spec: `Color::new` builds a color from its channels. -/
def Color.new (r g b : ℚ) : Color := ⟨r, g, b⟩

/-- Modelled from the spec: `Color::black()` is the zero color. -/
def Color.black : Color := ⟨0, 0, 0⟩

/-- Modelled from the spec: `lerp(other, t)` interpolates each channel
    linearly from `self` (at t = 0) to `other` (at t = 1). -/
def Color.lerp (c other : Color) (t : ℚ) : Color :=
  ⟨c.r + (other.r - c.r) * t,
   c.g + (other.g - c.g) * t,
   c.b + (other.b - c.b) * t⟩

/-- Modelled from the spec: `blend(other, weight)` is the weighted average
    of the two colors with weight `weight` on `other`. -/
def Color.blend (c other : Color) (weight : ℚ) : Color :=
  ⟨c.r * (1 - weight) + other.r * weight,
   c.g * (1 - weight) + other.g * weight,
   c.b * (1 - weight) + other.b * weight⟩

instance : HMul Color ℚ Color := ⟨fun c s => ⟨c.r * s, c.g * s, c.b * s⟩⟩

instance : Add Color := ⟨fun a b => ⟨a.r + b.r, a.g + b.g, a.b + b.b⟩⟩

/-- Saturating conversion of a channel to an 8-bit integer. -/
def ratToByte (q : ℚ) : ℕ := min 255 (max 0 ⌊q⌋).toNat

/-- Modelled from the spec: `Color::to_hex` packs the channels into a single
    32-bit integer in `0xRRGGBB` layout (red in bits 16..23, green in bits
    8..15, blue in bits 0..7). -/
def Color.to_hex (c : Color) : ℕ :=
  (ratToByte c.r <<< 16) ||| (ratToByte c.g <<< 8) ||| ratToByte c.b

/-- The noise algorithms offered by the fastnoise-lite crate. -/
inductive NoiseType where
  | openSimplex2
  | openSimplex2S
  | cellular
  | perlin
  | valueCubic
  | value
deriving DecidableEq

/-- The FastNoiseLite sampler as the program observes it: the configured
    seed and noise type, together with the two deterministic query functions
    (`get_noise_2d`, `get_noise_3d`) the crate derives from them. -/
structure FastNoiseLite where
  seed : ℤ
  noise_type : NoiseType
  get_noise_2d : ℚ → ℚ → ℚ
  get_noise_3d : ℚ → ℚ → ℚ → ℚ

/-- Modelled from the spec: `vertex.rs` is not in the source snapshot. A
    vertex carries object-space position/normal, texture coordinates and a
    base color, plus the derived screen-space position and transformed
    normal, matching the struct literal built in `vertex_shader`. -/
structure Vertex where
  position : Vec3
  normal : Vec3
  tex_coords : Vec2
  color : Color
  transformed_position : Vec3
  transformed_normal : Vec3

/-- Modelled from the spec: screen-space integer pixel coordinates of a
    fragment (`fragment.rs` is not in the source snapshot). -/
structure IVec2 where
  x : ℤ
  y : ℤ
deriving DecidableEq

/-- Modelled from the spec: `fragment.rs` is not in the source snapshot. A
    fragment carries screen-space integer pixel coordinates, interpolated
    depth, interpolated object-space position, interpolated normal, and the
    ambient light intensity computed by the rasterizer. -/
structure Fragment where
  position : IVec2
  depth : ℚ
  vertex_position : Vec3
  normal : Vec3
  intensity : ℚ

/-- The per-draw-call uniform bundle defined in `main.rs`. -/
structure Uniforms where
  model_matrix : Mat4
  view_matrix : Mat4
  projection_matrix : Mat4
  viewport_matrix : Mat4
  time : ℕ
  noise : FastNoiseLite
  shader_mode : ℕ

/-- `vertex_shader` from `src/shaders.rs`: clip-space transform, perspective
    divide by the homogeneous component, viewport transform, and the
    inverse-transpose normal matrix with identity fallback. -/
def vertex_shader (vertex : Vertex) (uniforms : Uniforms) : Vertex :=
  let position : Vec4 := ⟨vertex.position.x, vertex.position.y, vertex.position.z, 1.0⟩
  let transformed :=
    uniforms.projection_matrix * uniforms.view_matrix * uniforms.model_matrix * position
  let w := transformed.w
  let transformed_position : Vec4 :=
    ⟨transformed.x / w, transformed.y / w, transformed.z / w, 1.0⟩
  let screen_position := uniforms.viewport_matrix * transformed_position
  let model_mat3 := mat4_to_mat3 uniforms.model_matrix
  let normal_matrix := (model_mat3.transpose.try_inverse).getD Mat3.identity
  let transformed_normal := normal_matrix * vertex.normal
  { position := vertex.position
    normal := vertex.normal
    tex_coords := vertex.tex_coords
    color := vertex.color
    transformed_position := ⟨screen_position.x, screen_position.y, screen_position.z⟩
    transformed_normal := transformed_normal }

/-- `star_shader` from `src/shaders.rs` (mode 1): pulsating noise-blended
    bright/dark palette, no lighting beyond the fragment intensity. -/
def star_shader (ops : MathOps) (fragment : Fragment) (uniforms : Uniforms) : Color :=
  let bright_color := Color.new 255 223 0
  let dark_color := Color.new 255 69 0
  let zoom : ℚ := 300.0
  let t : ℚ := (uniforms.time : ℚ) * 0.05
  let noise_value := uniforms.noise.get_noise_3d
    (fragment.vertex_position.x * zoom) (fragment.vertex_position.y * zoom) t
  let intensity := ops.sin (t * 2.0) * 0.3 + 0.7
  let color := dark_color.lerp bright_color noise_value * intensity
  color * fragment.intensity

/-- `gas_giant_shader` from `src/shaders.rs` (mode 3): layered noise bands
    plus an animated ring overlay blended over the base. -/
def gas_giant_shader (fragment : Fragment) (uniforms : Uniforms) : Color :=
  let color_layer_1 := Color.new 255 165 0
  let color_layer_2 := Color.new 255 215 0
  let color_layer_3 := Color.new 255 200 26
  let color_layer_4 := Color.new 255 179 34
  let ring_color := Color.new 238 238 214
  let zoom_planet : ℚ := 10.0
  let zoom_ring : ℚ := 5.0
  let x := fragment.vertex_position.x
  let y := fragment.vertex_position.y
  let t : ℚ := (uniforms.time : ℚ) * 0.5
  let ox : ℚ := 25.0
  let oy : ℚ := 25.0
  let noise_value := abs (uniforms.noise.get_noise_2d (x * zoom_planet * ox) (y * zoom_planet * oy))
  let layer_color :=
    if noise_value < 0.15 then color_layer_1
    else if noise_value < 0.7 then color_layer_2
    else if noise_value < 0.75 then color_layer_3
    else color_layer_4
  let cloud_noise :=
    abs (uniforms.noise.get_noise_2d (x * zoom_planet + 100.0) (y * zoom_planet + 100.0)) * 0.3
  let cloud_color := layer_color.lerp (Color.new 255 255 255) (cloud_noise * 0.1)
  let planet_color := cloud_color * ((fragment.intensity * 3.0).clamp 0.0 1.0)
  let ring_distance : ℚ := 0.05
  let ring_noise_value :=
    abs (uniforms.noise.get_noise_2d (x * zoom_ring + 50.0 + t) (y * zoom_ring + 50.0 + t)) * 0.5
  let ring_intensity :=
    if abs (fragment.vertex_position.y - ring_distance) < 0.05 then
      ring_color.lerp Color.black (ring_noise_value * 0.7)
    else Color.black
  let final_color := planet_color.blend ring_intensity 0.4
  final_color

/-- `icy_planet_shader` from `src/shaders.rs` (mode 4): noise-based
    base/shadow blend, diffuse light, a specular term computed from the
    clamped dot product of the normal with the negated light direction, and
    a translucency blend toward white. -/
def icy_planet_shader (ops : MathOps) (fragment : Fragment) (uniforms : Uniforms) : Color :=
  let base_noise := uniforms.noise.get_noise_2d
    (fragment.vertex_position.x * 5.0) (fragment.vertex_position.y * 5.0)
  let detail_noise := uniforms.noise.get_noise_2d
    (fragment.vertex_position.x * 10.0) (fragment.vertex_position.y * 10.0)
  let ice_color := Color.new 173 216 230
  let highlight_color := Color.new 255 255 255
  let shadow_color := Color.new 100 149 237
  let base_color := ice_color.lerp highlight_color base_noise
  let detail_variation := detail_noise * 0.2
  let color_with_detail := base_color.lerp shadow_color detail_variation
  let light_dir := (Vec3.mk 1.0 1.0 0.5).normalize ops
  let normal := fragment.normal.normalize ops
  let diffuse_intensity := max (dot normal light_dir) 0.0
  let specular_intensity := (max (dot normal (light_dir * (-1.0 : ℚ))) 0.0).powi 16
  let specular_color := highlight_color * specular_intensity
  let lit_color := color_with_detail * (0.4 + 0.6 * diffuse_intensity) + specular_color
  let translucency := (base_noise * 0.5 + 0.5).clamp 0.0 1.0
  let final_color := lit_color.lerp (Color.new 255 255 255) (translucency * 0.2)
  final_color * fragment.intensity

/-- `volcanic_planet_shader` from `src/shaders.rs` (mode 5): dual 3D noise
    samples averaged with a time-driven pulsation term and a
    threshold-triggered lava brightening. -/
def volcanic_planet_shader (ops : MathOps) (fragment : Fragment) (uniforms : Uniforms) : Color :=
  let bright_color := Color.new 255 240 0
  let dark_color := Color.new 130 20 0
  let base_color := Color.new 30 30 30
  let lava_color := Color.new 255 100 0
  let position := Vec3.mk fragment.vertex_position.x fragment.vertex_position.y fragment.depth
  let base_frequency : ℚ := 0.2
  let pulsate_amplitude : ℚ := 0.5
  let t : ℚ := (uniforms.time : ℚ) * 0.01
  let pulsate := ops.sin (t * base_frequency) * pulsate_amplitude
  let zoom : ℚ := 1000.0
  let noise_value1 := uniforms.noise.get_noise_3d
    (position.x * zoom) (position.y * zoom) ((position.z + pulsate) * zoom)
  let noise_value2 := uniforms.noise.get_noise_3d
    ((position.x + 1000.0) * zoom) ((position.y + 1000.0) * zoom)
    ((position.z + 1000.0 + pulsate) * zoom)
  let lava_noise_value := (noise_value1 + noise_value2) * 0.5
  let detail_noise := uniforms.noise.get_noise_2d
    (fragment.vertex_position.x * 20.0) (fragment.vertex_position.y * 20.0)
  let rough_noise := uniforms.noise.get_noise_2d
    (fragment.vertex_position.x * 5.0) (fragment.vertex_position.y * 5.0)
  let surface_detail := base_color.lerp dark_color (rough_noise * 0.5)
  let lava_detail := lava_color.lerp (Color.new 255 140 0) (detail_noise * 0.5)
  let final_color := surface_detail.lerp lava_detail (lava_noise_value * fragment.intensity)
  let lava_threshold : ℚ := 0.5
  let output_color :=
    if lava_noise_value > lava_threshold then final_color.lerp bright_color 0.5
    else final_color
  output_color

/-- `earth_like_planet_shader` from `src/shaders.rs` (mode 6): water, shore
    and land threshold bands, diffuse lighting, and an animated distorted
    cloud overlay. -/
def earth_like_planet_shader (ops : MathOps) (fragment : Fragment) (uniforms : Uniforms) : Color :=
  let zoom : ℚ := 170.0
  let ox : ℚ := 700.0
  let oy : ℚ := 600.0
  let x := fragment.vertex_position.x
  let y := fragment.vertex_position.y
  let t : ℚ := (uniforms.time : ℚ) * 0.5
  let noise_value := uniforms.noise.get_noise_2d (x * zoom + ox) (y * zoom + oy)
  let water_threshold : ℚ := 0.50
  let land_threshold : ℚ := 0.55
  let water_color := Color.new 13 105 171
  let shore_color := Color.new 244 164 96
  let land_color := Color.new 34 139 34
  let base_color :=
    if noise_value < water_threshold then water_color
    else if noise_value < land_threshold then shore_color
    else land_color
  let light_dir := (Vec3.mk 1.0 1.0 0.5).normalize ops
  let normal := fragment.normal.normalize ops
  let diffuse_intensity := max (dot normal light_dir) 0.0
  let lit_color := base_color * (0.4 + 0.6 * diffuse_intensity)
  let cloud_zoom : ℚ := 20.0
  let cloud_offset : ℚ := 37.0
  let oval_x := ops.sin (x * cloud_zoom * 0.8 + ox + t) * cloud_offset
  let oval_y := ops.cos (y * cloud_zoom * 0.95 + oy) * cloud_offset
  let cloud_noise_value := uniforms.noise.get_noise_2d oval_x oval_y
  let cloud_threshold : ℚ := 0.45
  let cloud_color := Color.new 255 255 255
  let final_color :=
    if cloud_noise_value > cloud_threshold then lit_color.blend cloud_color 0.5
    else lit_color
  final_color * fragment.intensity

/-- `broken_terrain_shader` from `src/shaders.rs` (mode 2): binary noise
    threshold between dirt and base terrain with a crack overlay. -/
def broken_terrain_shader (fragment : Fragment) (uniforms : Uniforms) : Color :=
  let base_color := Color.new 140 130 120
  let crack_color := Color.new 200 200 255
  let dirt_color := Color.new 100 70 40
  let zoom_2d : ℚ := 10.0
  let crack_zoom : ℚ := 30.0
  let ox : ℚ := 0.0
  let oy : ℚ := 0.0
  let noise_value := uniforms.noise.get_noise_2d
    (fragment.vertex_position.x * zoom_2d + ox) (fragment.vertex_position.y * zoom_2d + oy)
  let crack_noise_value := uniforms.noise.get_noise_2d
    (fragment.vertex_position.x * crack_zoom + ox) (fragment.vertex_position.y * crack_zoom + oy)
  let terrain_color := if noise_value < 0.2 then dirt_color else base_color
  let crack_intensity := (abs crack_noise_value).clamp 0.0 1.0
  let final_color := terrain_color.lerp crack_color crack_intensity
  final_color * fragment.intensity

/-- `alien_planet_shader` from `src/shaders.rs` (mode 7): 3-band noise
    palette, emissive color mix, and ambient/diffuse lighting. -/
def alien_planet_shader (ops : MathOps) (fragment : Fragment) (uniforms : Uniforms) : Color :=
  let zoom : ℚ := 50.0
  let x := fragment.vertex_position.x
  let y := fragment.vertex_position.y
  let noise_value := uniforms.noise.get_noise_2d (x * zoom) (y * zoom)
  let base_color := Color.new 75 0 130
  let secondary_color := Color.new 0 255 255
  let tertiary_color := Color.new 243 22 206
  let planet_color :=
    if noise_value < 0.3 then base_color
    else if noise_value < 0.6 then secondary_color
    else tertiary_color
  let emission_strength := (0.5 + noise_value * 1.5).clamp 0.0 1.0
  let emission_color := Color.new 255 20 147 * emission_strength
  let final_color := planet_color * (0.7 : ℚ) + emission_color * (0.3 : ℚ)
  let light_dir := (Vec3.mk 1.0 1.0 0.5).normalize ops
  let normal := fragment.normal.normalize ops
  let diffuse_intensity := max (dot normal light_dir) 0.0
  let ambient_intensity : ℚ := 0.4
  let diffuse_factor : ℚ := 0.6
  let lit_color := final_color * (ambient_intensity + diffuse_factor * diffuse_intensity)
  lit_color * fragment.intensity

/-- `spaceship_shader` from `src/shaders.rs` (mode 8): uniform metallic base
    with subtle noise variation, diffuse light, and a specular term computed
    from the reflection of the light direction about the normal dotted with
    the view direction. -/
def spaceship_shader (ops : MathOps) (fragment : Fragment) (uniforms : Uniforms) : Color :=
  let base_color := Color.new 200 200 200
  let highlight_color := Color.new 255 255 255
  let shadow_color := Color.new 120 120 120
  let zoom : ℚ := 15.0
  let noise_value := uniforms.noise.get_noise_2d
    (fragment.vertex_position.x * zoom) (fragment.vertex_position.y * zoom)
  let color_variation := base_color.lerp shadow_color (noise_value * 0.1)
  let light_dir := (Vec3.mk 1.0 1.0 0.5).normalize ops
  let normal := fragment.normal.normalize ops
  let diffuse_intensity := max (dot normal light_dir) 0.0
  let view_dir := Vec3.mk 0.0 0.0 1.0
  let reflect_dir := (2.0 : ℚ) * dot normal light_dir * normal - light_dir
  let specular_intensity := (max (dot reflect_dir view_dir) 0.0).powi 16
  let specular_color := highlight_color * specular_intensity
  let lit_color : Color := color_variation * (0.4 + 0.6 * diffuse_intensity) + specular_color
  let final_color := lit_color * fragment.intensity
  final_color

/-- `fragment_shader` from `src/shaders.rs`: dispatch on the shading-mode
    tag over the eight materials, with black as the default for any other
    tag. -/
def fragment_shader (ops : MathOps) (fragment : Fragment) (uniforms : Uniforms) : Color :=
  if uniforms.shader_mode = 1 then star_shader ops fragment uniforms
  else if uniforms.shader_mode = 2 then broken_terrain_shader fragment uniforms
  else if uniforms.shader_mode = 3 then gas_giant_shader fragment uniforms
  else if uniforms.shader_mode = 4 then icy_planet_shader ops fragment uniforms
  else if uniforms.shader_mode = 5 then volcanic_planet_shader ops fragment uniforms
  else if uniforms.shader_mode = 6 then earth_like_planet_shader ops fragment uniforms
  else if uniforms.shader_mode = 7 then alien_planet_shader ops fragment uniforms
  else if uniforms.shader_mode = 8 then spaceship_shader ops fragment uniforms
  else Color.new 0 0 0

/-- `create_cloud_noise` from `src/main.rs`: a FastNoiseLite instance with
    seed 1337 and the OpenSimplex2 noise type. The crate derives the two
    query functions deterministically from the configuration; a model of
    that derivation is taken as the parameters `alg2` and `alg3`. -/
def create_cloud_noise (alg2 : ℤ → NoiseType → ℚ → ℚ → ℚ)
    (alg3 : ℤ → NoiseType → ℚ → ℚ → ℚ → ℚ) : FastNoiseLite :=
  { seed := 1337
    noise_type := NoiseType.openSimplex2
    get_noise_2d := alg2 1337 NoiseType.openSimplex2
    get_noise_3d := alg3 1337 NoiseType.openSimplex2 }

/-- `create_noise` from `src/main.rs`: delegates to `create_cloud_noise`. -/
def create_noise (alg2 : ℤ → NoiseType → ℚ → ℚ → ℚ)
    (alg3 : ℤ → NoiseType → ℚ → ℚ → ℚ → ℚ) : FastNoiseLite :=
  create_cloud_noise alg2 alg3

/-- The `uniforms_sphere` bundle built each frame in `main` (main.rs lines
    414..422): the sphere is drawn with the local `shader_mode` variable,
    which is 0, and a freshly created noise instance. -/
def uniforms_sphere (alg2 : ℤ → NoiseType → ℚ → ℚ → ℚ)
    (alg3 : ℤ → NoiseType → ℚ → ℚ → ℚ → ℚ)
    (model_matrix_sphere view_matrix projection_matrix viewport_matrix : Mat4)
    (time : ℕ) : Uniforms :=
  { model_matrix := model_matrix_sphere
    view_matrix := view_matrix
    projection_matrix := projection_matrix
    viewport_matrix := viewport_matrix
    time := time
    noise := create_noise alg2 alg3
    shader_mode := 0 }

/-- The `uniforms_ship` bundle built each frame in `main` (main.rs lines
    425..433): shading mode 8 and a freshly created noise instance. -/
def uniforms_ship (alg2 : ℤ → NoiseType → ℚ → ℚ → ℚ)
    (alg3 : ℤ → NoiseType → ℚ → ℚ → ℚ → ℚ)
    (model_matrix_ship view_matrix projection_matrix viewport_matrix : Mat4)
    (time : ℕ) : Uniforms :=
  { model_matrix := model_matrix_ship
    view_matrix := view_matrix
    projection_matrix := projection_matrix
    viewport_matrix := viewport_matrix
    time := time
    noise := create_noise alg2 alg3
    shader_mode := 8 }

/-- The per-planet uniforms bundle built each frame in `main` (main.rs lines
    460..468): the planet shading mode and a freshly created noise
    instance. -/
def uniforms_planet (alg2 : ℤ → NoiseType → ℚ → ℚ → ℚ)
    (alg3 : ℤ → NoiseType → ℚ → ℚ → ℚ → ℚ)
    (model_matrix view_matrix projection_matrix viewport_matrix : Mat4)
    (time : ℕ) (planet_shader_mode : ℕ) : Uniforms :=
  { model_matrix := model_matrix
    view_matrix := view_matrix
    projection_matrix := projection_matrix
    viewport_matrix := viewport_matrix
    time := time
    noise := create_noise alg2 alg3
    shader_mode := planet_shader_mode }

/-- The background color packing from `render` (main.rs line 123):
    `(pixel[0] as u32) | ((pixel[1] as u32) << 8) | ((pixel[2] as u32) << 16)`
    where `pixel[0]`, `pixel[1]`, `pixel[2]` are the red, green and blue
    channels of the panoramic image pixel. -/
def background_pixel_color (r g b : ℕ) : ℕ :=
  r ||| (g <<< 8) ||| (b <<< 16)

/-- The Rust `as usize` cast applied by `render` to a fragment coordinate:
    an integer is reduced in twos-complement style into the 64-bit unsigned
    range, so a negative i32 coordinate becomes a value of at least
    2^64 - 2^31. -/
def usize_of_int (n : ℤ) : ℕ := (n % 18446744073709551616).toNat

/-- The per-fragment step of `render` (main.rs lines 159..171): cast the
    fragment coordinates to usize, and only when both are inside the
    framebuffer extents shade the fragment and emit a depth-tested write of
    the packed color at that pixel; otherwise do nothing. The returned
    option is the write performed (x, y, packed color, depth), `none` when
    the fragment is dropped. -/
def process_fragment (ops : MathOps) (width height : ℕ)
    (fragment : Fragment) (uniforms : Uniforms) : Option (ℕ × ℕ × ℕ × ℚ) :=
  let x := usize_of_int fragment.position.x
  let y := usize_of_int fragment.position.y
  if x < width ∧ y < height then
    let shaded_color := fragment_shader ops fragment uniforms
    some (x, y, shaded_color.to_hex, fragment.depth)
  else
    none

/-- The clip-space position of a vertex, written as the spec words it:
    `clip = projection * view * model * [position, 1]`. -/
def clip_position (vertex : Vertex) (uniforms : Uniforms) : Vec4 :=
  uniforms.projection_matrix * uniforms.view_matrix * uniforms.model_matrix *
    (⟨vertex.position.x, vertex.position.y, vertex.position.z, 1.0⟩ : Vec4)

/-- The screen-space position as the spec words it: `viewport * (clip /
    clip.w)`, with the first three components taken as the stored
    screen-space position. -/
def spec_screen_position (vertex : Vertex) (uniforms : Uniforms) : Vec3 :=
  let clip := clip_position vertex uniforms
  let s := uniforms.viewport_matrix * (clip / clip.w)
  ⟨s.x, s.y, s.z⟩

/-- The normal matrix as the spec words it: the inverse-transpose of the
    3x3 submatrix of the model matrix, with the identity used instead when
    that submatrix is singular. -/
def spec_normal_matrix (m : Mat4) : Mat3 :=
  let sub := mat4_to_mat3 m
  if sub.det = 0 then Mat3.identity else sub.inverse.transpose

/-- The reflection of the light direction about the surface normal, as the
    claim words it. -/
def reflect_about (normal light_dir : Vec3) : Vec3 :=
  (2.0 : ℚ) * dot normal light_dir * normal - light_dir

/-- The specular intensity as claim C6 words it: the dot product of the
    reflection of the light direction about the normal with the view
    direction, clamped to be non-negative and raised to the exponent 16. -/
def spec_specular_intensity (normal light_dir view_dir : Vec3) : ℚ :=
  (max (dot (reflect_about normal light_dir) view_dir) 0.0).powi 16

/-- The icy material as claim C6 describes it: identical to
    `icy_planet_shader` except that the specular intensity is the
    reflection-vector formula `spec_specular_intensity`, with the view
    direction (0,0,1) used by the spaceship material. -/
def icy_claimed_shader (ops : MathOps) (fragment : Fragment) (uniforms : Uniforms) : Color :=
  let base_noise := uniforms.noise.get_noise_2d
    (fragment.vertex_position.x * 5.0) (fragment.vertex_position.y * 5.0)
  let detail_noise := uniforms.noise.get_noise_2d
    (fragment.vertex_position.x * 10.0) (fragment.vertex_position.y * 10.0)
  let ice_color := Color.new 173 216 230
  let highlight_color := Color.new 255 255 255
  let shadow_color := Color.new 100 149 237
  let base_color := ice_color.lerp highlight_color base_noise
  let detail_variation := detail_noise * 0.2
  let color_with_detail := base_color.lerp shadow_color detail_variation
  let light_dir := (Vec3.mk 1.0 1.0 0.5).normalize ops
  let normal := fragment.normal.normalize ops
  let diffuse_intensity := max (dot normal light_dir) 0.0
  let specular_intensity := spec_specular_intensity normal light_dir (Vec3.mk 0.0 0.0 1.0)
  let specular_color := highlight_color * specular_intensity
  let lit_color := color_with_detail * (0.4 + 0.6 * diffuse_intensity) + specular_color
  let translucency := (base_noise * 0.5 + 0.5).clamp 0.0 1.0
  let final_color := lit_color.lerp (Color.new 255 255 255) (translucency * 0.2)
  final_color * fragment.intensity

/-- The spaceship material as claim C6 describes it: identical to
    `spaceship_shader` with the specular intensity written through
    `spec_specular_intensity`. -/
def spaceship_claimed_shader (ops : MathOps) (fragment : Fragment) (uniforms : Uniforms) : Color :=
  let base_color := Color.new 200 200 200
  let highlight_color := Color.new 255 255 255
  let shadow_color := Color.new 120 120 120
  let zoom : ℚ := 15.0
  let noise_value := uniforms.noise.get_noise_2d
    (fragment.vertex_position.x * zoom) (fragment.vertex_position.y * zoom)
  let color_variation := base_color.lerp shadow_color (noise_value * 0.1)
  let light_dir := (Vec3.mk 1.0 1.0 0.5).normalize ops
  let normal := fragment.normal.normalize ops
  let diffuse_intensity := max (dot normal light_dir) 0.0
  let view_dir := Vec3.mk 0.0 0.0 1.0
  let specular_intensity := spec_specular_intensity normal light_dir view_dir
  let specular_color := highlight_color * specular_intensity
  let lit_color : Color := color_variation * (0.4 + 0.6 * diffuse_intensity) + specular_color
  let final_color := lit_color * fragment.intensity
  final_color

/-- The specular intensity the icy material actually computes: the dot
    product of the normalized normal with the negated light direction,
    clamped to be non-negative and raised to the exponent 16. -/
def icy_specular_intensity (normal light_dir : Vec3) : ℚ :=
  (max (dot normal (light_dir * (-1.0 : ℚ))) 0.0).powi 16

/-- The icy material with its specular term isolated through
    `icy_specular_intensity` (the amended description of claim C6). -/
def icy_amended_shader (ops : MathOps) (fragment : Fragment) (uniforms : Uniforms) : Color :=
  let base_noise := uniforms.noise.get_noise_2d
    (fragment.vertex_position.x * 5.0) (fragment.vertex_position.y * 5.0)
  let detail_noise := uniforms.noise.get_noise_2d
    (fragment.vertex_position.x * 10.0) (fragment.vertex_position.y * 10.0)
  let ice_color := Color.new 173 216 230
  let highlight_color := Color.new 255 255 255
  let shadow_color := Color.new 100 149 237
  let base_color := ice_color.lerp highlight_color base_noise
  let detail_variation := detail_noise * 0.2
  let color_with_detail := base_color.lerp shadow_color detail_variation
  let light_dir := (Vec3.mk 1.0 1.0 0.5).normalize ops
  let normal := fragment.normal.normalize ops
  let diffuse_intensity := max (dot normal light_dir) 0.0
  let specular_intensity := icy_specular_intensity normal light_dir
  let specular_color := highlight_color * specular_intensity
  let lit_color := color_with_detail * (0.4 + 0.6 * diffuse_intensity) + specular_color
  let translucency := (base_noise * 0.5 + 0.5).clamp 0.0 1.0
  let final_color := lit_color.lerp (Color.new 255 255 255) (translucency * 0.2)
  final_color * fragment.intensity

/-- The packing layout claim C9 and the spec state for stored colors:
    `0xRRGGBB`, red in bits 16..23, green in bits 8..15, blue in bits
    0..7. -/
def spec_rgb_pack (r g b : ℕ) : ℕ :=
  (r <<< 16) ||| (g <<< 8) ||| b

/-- A noise instance whose queries all return 0, for concrete witnesses. -/
def dummy_noise : FastNoiseLite :=
  ⟨1337, NoiseType.openSimplex2, fun _ _ => 0, fun _ _ _ => 0⟩

/-- A noise instance whose 3D query returns the maximal value 1, for the
    star-shader witness. -/
def star_noise : FastNoiseLite :=
  ⟨1337, NoiseType.openSimplex2, fun _ _ => 0, fun _ _ _ => 1⟩

/-- Trivial transcendental functions for concrete witnesses (only their
    value at 0 matters there). -/
def zero_ops : MathOps := ⟨fun _ => 0, fun _ => 0, fun _ => 0⟩

/-- Transcendental functions for the icy-material counterexample: the square
    root is exact on the two radicands that occur (1 and 9/4, the squared
    norms of the fragment normal and of the light vector (1,1,0.5)). -/
def cx_ops : MathOps :=
  ⟨fun _ => 0, fun _ => 0, fun q => if q = 1 then 1 else if q = 9 / 4 then 3 / 2 else 0⟩

/-- The identity 4x4 matrix, used to build concrete uniforms. -/
def id_mat4 : Mat4 := ⟨1, 0, 0, 0, 0, 1, 0, 0, 0, 0, 1, 0, 0, 0, 0, 1⟩

/-- A concrete vertex for witnesses. -/
def sample_vertex : Vertex :=
  { position := ⟨1, 2, 3⟩
    normal := ⟨0, 0, 1⟩
    tex_coords := ⟨0, 0⟩
    color := Color.black
    transformed_position := ⟨0, 0, 0⟩
    transformed_normal := ⟨0, 0, 0⟩ }

/-- Concrete uniforms with identity matrices and shading mode 0. -/
def sample_uniforms : Uniforms :=
  { model_matrix := id_mat4
    view_matrix := id_mat4
    projection_matrix := id_mat4
    viewport_matrix := id_mat4
    time := 0
    noise := dummy_noise
    shader_mode := 0 }

/-- A concrete fragment for witnesses. -/
def sample_fragment : Fragment :=
  { position := ⟨0, 0⟩
    depth := 0
    vertex_position := ⟨0, 0, 0⟩
    normal := ⟨0, 0, 1⟩
    intensity := 1 }

/-- A perspective-style projection whose bottom row is (0,0,-1,0): a vertex
    on the camera plane then has clip-space w equal to 0. -/
def camera_plane_projection : Mat4 := ⟨1, 0, 0, 0, 0, 1, 0, 0, 0, 0, 1, 0, 0, 0, -1, 0⟩

/-- Concrete uniforms under which the origin vertex lands on the camera
    plane (clip-space w = 0). -/
def camera_plane_uniforms : Uniforms :=
  { model_matrix := id_mat4
    view_matrix := id_mat4
    projection_matrix := camera_plane_projection
    viewport_matrix := id_mat4
    time := 0
    noise := dummy_noise
    shader_mode := 0 }

/-- The origin vertex, which the projection above maps to clip-space w = 0. -/
def camera_plane_vertex : Vertex :=
  { position := ⟨0, 0, 0⟩
    normal := ⟨0, 0, 1⟩
    tex_coords := ⟨0, 0⟩
    color := Color.black
    transformed_position := ⟨0, 0, 0⟩
    transformed_normal := ⟨0, 0, 0⟩ }

/-- A fragment whose normalized normal is (0,0,1), on which the icy
    reflection-vector specular would be positive while the icy code
    specular is 0. -/
def cx_fragment : Fragment :=
  { position := ⟨0, 0⟩
    depth := 0
    vertex_position := ⟨0, 0, 0⟩
    normal := ⟨0, 0, 1⟩
    intensity := 1 }

/-- Concrete uniforms for the icy-material counterexample (mode 4). -/
def cx_uniforms : Uniforms :=
  { model_matrix := id_mat4
    view_matrix := id_mat4
    projection_matrix := id_mat4
    viewport_matrix := id_mat4
    time := 0
    noise := dummy_noise
    shader_mode := 4 }

/-- Concrete uniforms for the star-shader witness: frame counter 0,
    maximal noise, mode 1. -/
def star_uniforms : Uniforms :=
  { model_matrix := id_mat4
    view_matrix := id_mat4
    projection_matrix := id_mat4
    viewport_matrix := id_mat4
    time := 0
    noise := star_noise
    shader_mode := 1 }

/-- A concrete fragment for the star-shader witness. -/
def star_fragment : Fragment :=
  { position := ⟨0, 0⟩
    depth := 0
    vertex_position := ⟨0, 0, 0⟩
    normal := ⟨0, 0, 1⟩
    intensity := 1 / 2 }

/-- A fragment with a negative screen x coordinate, for the out-of-bounds
    witness. -/
def oob_fragment : Fragment :=
  { position := ⟨-1, 10⟩
    depth := 1 / 2
    vertex_position := ⟨0, 0, 0⟩
    normal := ⟨0, 0, 1⟩
    intensity := 1 }

theorem mul_mat4_vec4 (m : Mat4) (v : Vec4) : m * v = m.mulVec v := rfl

theorem mul_mat4_mat4 (a b : Mat4) : a * b = a.mul b := rfl

theorem mul_mat3_vec3 (m : Mat3) (v : Vec3) : m * v = m.mulVec v := rfl

theorem div_vec4_def (v : Vec4) (s : ℚ) : v / s = v.divScalar s := rfl

theorem vec3_sub_def (a b : Vec3) : a - b = ⟨a.x - b.x, a.y - b.y, a.z - b.z⟩ := rfl

theorem vec3_mul_rat (v : Vec3) (s : ℚ) : v * s = ⟨v.x * s, v.y * s, v.z * s⟩ := rfl

theorem rat_mul_vec3 (s : ℚ) (v : Vec3) : s * v = ⟨s * v.x, s * v.y, s * v.z⟩ := rfl

theorem color_mul_rat (c : Color) (s : ℚ) : c * s = ⟨c.r * s, c.g * s, c.b * s⟩ := rfl

theorem color_add_def (a b : Color) : a + b = ⟨a.r + b.r, a.g + b.g, a.b + b.b⟩ := rfl

theorem perspective_divide_eq (c : Vec4) (h : c.w ≠ 0) :
    c / c.w = (⟨c.x / c.w, c.y / c.w, c.z / c.w, 1.0⟩ : Vec4) := by
  rw [div_vec4_def]
  unfold Vec4.divScalar
  rw [div_self h]
  norm_num [Vec4.mk.injEq]

/-- Claim C1: for every vertex and uniforms bundle whose clip-space
    homogeneous component is nonzero, the screen-space position stored by
    `vertex_shader` equals `viewport * (clip / clip.w)` where
    `clip = projection * view * model * [position, 1]`. -/
theorem c1_screen_position (v : Vertex) (u : Uniforms)
    (h : (clip_position v u).w ≠ 0) :
    (vertex_shader v u).transformed_position = spec_screen_position v u := by
  have hp := perspective_divide_eq (clip_position v u) h
  simp only [vertex_shader, spec_screen_position]
  rw [hp]
  rfl

/-- Witness for claim C1 at a concrete vertex and concrete uniforms. -/
theorem c1_screen_position_witness :
    (clip_position sample_vertex sample_uniforms).w ≠ 0 ∧
    (vertex_shader sample_vertex sample_uniforms).transformed_position =
      spec_screen_position sample_vertex sample_uniforms :=
  ⟨by
    norm_num [clip_position, sample_vertex, sample_uniforms, id_mat4,
      mul_mat4_mat4, mul_mat4_vec4, Mat4.mul, Mat4.mulVec],
   c1_screen_position sample_vertex sample_uniforms (by
    norm_num [clip_position, sample_vertex, sample_uniforms, id_mat4,
      mul_mat4_mat4, mul_mat4_vec4, Mat4.mul, Mat4.mulVec])⟩

/-- Claim C2 evidence: at the concrete input where the vertex lies on the
    camera plane, the clip-space w is 0 and `vertex_shader` still applies
    the perspective divide unconditionally; no guard substitutes a safe
    default (in the rational model the division by zero collapses the
    screen position to the origin, in f32 it produces NaN). -/
theorem c2_unguarded_divide_eval :
    (clip_position camera_plane_vertex camera_plane_uniforms).w = 0 ∧
    (vertex_shader camera_plane_vertex camera_plane_uniforms).transformed_position =
      ⟨0, 0, 0⟩ := by
  constructor
  · norm_num [clip_position, camera_plane_vertex, camera_plane_uniforms,
      camera_plane_projection, id_mat4, mul_mat4_mat4, mul_mat4_vec4,
      Mat4.mul, Mat4.mulVec]
  · norm_num [vertex_shader, camera_plane_vertex, camera_plane_uniforms,
      camera_plane_projection, id_mat4, mul_mat4_mat4, mul_mat4_vec4,
      mul_mat3_vec3, Mat4.mul, Mat4.mulVec, mat4_to_mat3, Mat3.transpose,
      Mat3.try_inverse, Mat3.det, Mat3.inverse, Mat3.identity, Mat3.mulVec]

theorem det_transpose (m : Mat3) : m.transpose.det = m.det := by
  simp only [Mat3.transpose, Mat3.det]
  ring

theorem inverse_transpose (m : Mat3) : m.transpose.inverse = m.inverse.transpose := by
  have hd : m.transpose.det = m.det := det_transpose m
  apply Mat3.ext <;>
  · simp only [Mat3.inverse]
    rw [hd]
    simp only [Mat3.transpose]
    ring

theorem normal_matrix_spec (m : Mat4) :
    ((mat4_to_mat3 m).transpose.try_inverse).getD Mat3.identity = spec_normal_matrix m := by
  by_cases h : (mat4_to_mat3 m).det = 0
  · simp [Mat3.try_inverse, spec_normal_matrix, det_transpose, h]
  · simp [Mat3.try_inverse, spec_normal_matrix, det_transpose, h, inverse_transpose]

/-- Claim C3: for every vertex and uniforms bundle, the transformed normal
    produced by `vertex_shader` is the inverse-transpose of the 3x3
    submatrix of the model matrix applied to the object-space normal, with
    the identity matrix used instead when that submatrix is singular. -/
theorem c3_normal_transform (v : Vertex) (u : Uniforms) :
    (vertex_shader v u).transformed_normal = spec_normal_matrix u.model_matrix * v.normal := by
  simp only [vertex_shader]
  rw [normal_matrix_spec]

/-- Claim C4: for every fragment and uniforms bundle whose shading-mode tag
    is not one of the eight recognized material tags 1..8, `fragment_shader`
    returns the defined default color black. -/
theorem c4_default_black (ops : MathOps) (f : Fragment) (u : Uniforms)
    (h : ¬ (1 ≤ u.shader_mode ∧ u.shader_mode ≤ 8)) :
    fragment_shader ops f u = Color.new 0 0 0 := by
  have h1 : u.shader_mode ≠ 1 := by omega
  have h2 : u.shader_mode ≠ 2 := by omega
  have h3 : u.shader_mode ≠ 3 := by omega
  have h4 : u.shader_mode ≠ 4 := by omega
  have h5 : u.shader_mode ≠ 5 := by omega
  have h6 : u.shader_mode ≠ 6 := by omega
  have h7 : u.shader_mode ≠ 7 := by omega
  have h8 : u.shader_mode ≠ 8 := by omega
  simp [fragment_shader, h1, h2, h3, h4, h5, h6, h7, h8]

/-- Witness for claim C4 at the unrecognized tag 0. -/
theorem c4_default_black_witness :
    ¬ (1 ≤ sample_uniforms.shader_mode ∧ sample_uniforms.shader_mode ≤ 8) ∧
    fragment_shader zero_ops sample_fragment sample_uniforms = Color.new 0 0 0 :=
  ⟨by decide, c4_default_black zero_ops sample_fragment sample_uniforms (by decide)⟩

/-- Claim C5: the fragment shading dispatch, and with it every one of the
    eight material shaders, is deterministic: identical fragment and
    uniforms inputs yield identical color outputs, with no dependence on
    hidden mutable state (the embedding of the Rust functions is a pure
    function of its arguments). -/
theorem c5_deterministic (ops : MathOps) (f1 f2 : Fragment) (u1 u2 : Uniforms)
    (hf : f1 = f2) (hu : u1 = u2) :
    fragment_shader ops f1 u1 = fragment_shader ops f2 u2 := by
  rw [hf, hu]

/-- Witness for claim C5 at a concrete fragment and uniforms bundle. -/
theorem c5_deterministic_witness :
    sample_fragment = sample_fragment ∧ sample_uniforms = sample_uniforms ∧
    fragment_shader zero_ops sample_fragment sample_uniforms =
      fragment_shader zero_ops sample_fragment sample_uniforms :=
  ⟨rfl, rfl,
   c5_deterministic zero_ops sample_fragment sample_fragment
     sample_uniforms sample_uniforms rfl rfl⟩

/-- Counterexample to claim C6: at a concrete fragment whose normalized
    normal is (0,0,1), the icy material (mode 4) does not equal the variant
    that computes the specular intensity from the reflection vector dotted
    with the view direction: the code clamps dot(normal, -lightDir) = -1/3
    to 0, while the reflection formula gives (1/3)^16 > 0. -/
theorem c6_icy_counterexample :
    icy_planet_shader cx_ops cx_fragment cx_uniforms ≠
      icy_claimed_shader cx_ops cx_fragment cx_uniforms := by
  norm_num [icy_planet_shader, icy_claimed_shader, cx_ops, cx_fragment, cx_uniforms,
    dummy_noise, Vec3.normalize, dot, Color.lerp, Color.new, Rat.clamp, Rat.powi,
    color_mul_rat, color_add_def, vec3_mul_rat, rat_mul_vec3, vec3_sub_def,
    spec_specular_intensity, reflect_about, max_def, min_def, Color.mk.injEq]

/-- Claim C6 as amended: the spaceship material (mode 8) computes its
    specular intensity as the reflection of the light direction about the
    normal dotted with the view direction, clamped to non-negative and
    raised to the exponent 16; the icy material (mode 4) instead raises the
    clamped dot product of the normal with the negated light direction to
    the exponent 16. -/
theorem c6_specular_amended (ops : MathOps) (f : Fragment) (u : Uniforms) :
    spaceship_shader ops f u = spaceship_claimed_shader ops f u ∧
    icy_planet_shader ops f u = icy_amended_shader ops f u :=
  ⟨rfl, rfl⟩

/-- Claim C7: with frame counter 0 and the star-shader noise sample at its
    maximal value 1, the star shader output is the bright color scaled by
    the pulsation term at t = 0 (which is 0.7, since sin 0 = 0) and by the
    fragment intensity. -/
theorem c7_star_time_zero (ops : MathOps) (f : Fragment) (u : Uniforms)
    (ht : u.time = 0) (hs : ops.sin 0 = 0)
    (hn : u.noise.get_noise_3d (f.vertex_position.x * 300.0)
      (f.vertex_position.y * 300.0) ((u.time : ℚ) * 0.05) = 1) :
    star_shader ops f u = Color.new 255 223 0 * (0.7 : ℚ) * f.intensity := by
  simp only [star_shader]
  rw [ht] at hn ⊢
  norm_num at hn ⊢
  rw [hn, hs]
  apply Color.ext <;>
  · simp only [Color.lerp, Color.new, color_mul_rat]
    ring

/-- Witness for claim C7 at a concrete fragment, frame counter 0 and a
    noise instance returning the maximal value 1. -/
theorem c7_star_time_zero_witness :
    star_uniforms.time = 0 ∧ zero_ops.sin 0 = 0 ∧
    star_uniforms.noise.get_noise_3d (star_fragment.vertex_position.x * 300.0)
      (star_fragment.vertex_position.y * 300.0) ((star_uniforms.time : ℚ) * 0.05) = 1 ∧
    star_shader zero_ops star_fragment star_uniforms =
      Color.new 255 223 0 * (0.7 : ℚ) * star_fragment.intensity :=
  ⟨rfl, rfl, rfl, c7_star_time_zero zero_ops star_fragment star_uniforms rfl rfl rfl⟩

/-- Claim C8: a fragment whose integer pixel coordinates lie outside the
    framebuffer extents (negative, or at least the width/height) is dropped
    by the render loop: it is not shaded and no framebuffer write occurs on
    its behalf. The coordinate bounds are those of an i32 fragment
    coordinate and of realistic framebuffer extents (at most 2^32): the
    Rust `as usize` cast sends a negative coordinate to at least
    2^64 - 2^31, which fails the bounds check. -/
theorem c8_out_of_bounds_dropped (ops : MathOps) (width height : ℕ)
    (f : Fragment) (u : Uniforms)
    (hw : width ≤ 4294967296) (hh : height ≤ 4294967296)
    (hx1 : -2147483648 ≤ f.position.x) (hx2 : f.position.x < 2147483648)
    (hy1 : -2147483648 ≤ f.position.y) (hy2 : f.position.y < 2147483648)
    (hout : f.position.x < 0 ∨ f.position.y < 0 ∨
      (width : ℤ) ≤ f.position.x ∨ (height : ℤ) ≤ f.position.y) :
    process_fragment ops width height f u = none := by
  have hcond : ¬ (usize_of_int f.position.x < width ∧
      usize_of_int f.position.y < height) := by
    unfold usize_of_int
    omega
  simp only [process_fragment]
  rw [if_neg hcond]

/-- Witness for claim C8: a fragment at screen coordinates (-1, 10) is
    dropped by an 800 x 600 framebuffer. -/
theorem c8_out_of_bounds_dropped_witness :
    (800 : ℕ) ≤ 4294967296 ∧ (600 : ℕ) ≤ 4294967296 ∧
    -2147483648 ≤ oob_fragment.position.x ∧ oob_fragment.position.x < 2147483648 ∧
    -2147483648 ≤ oob_fragment.position.y ∧ oob_fragment.position.y < 2147483648 ∧
    (oob_fragment.position.x < 0 ∨ oob_fragment.position.y < 0 ∨
      (800 : ℤ) ≤ oob_fragment.position.x ∨ (600 : ℤ) ≤ oob_fragment.position.y) ∧
    process_fragment zero_ops 800 600 oob_fragment sample_uniforms = none :=
  ⟨by decide, by decide, by decide, by decide, by decide, by decide,
   Or.inl (by decide),
   c8_out_of_bounds_dropped zero_ops 800 600 oob_fragment sample_uniforms
     (by decide) (by decide) (by decide) (by decide) (by decide) (by decide)
     (Or.inl (by decide))⟩

/-- Claim C9 evidence: the background path of `render` packs a pure-red
    image pixel (255,0,0) as 255 (blue bits), not as 0xFF0000 as the
    0xRRGGBB layout of the claim requires and as `Color.to_hex` does for
    shaded fragments: the background packing puts red in bits 0..7 and blue
    in bits 16..23. -/
theorem c9_background_pack_eval :
    background_pixel_color 255 0 0 = 255 ∧
    spec_rgb_pack 255 0 0 = 16711680 ∧
    background_pixel_color 255 0 0 ≠ spec_rgb_pack 255 0 0 ∧
    Color.to_hex (Color.new 255 0 0) = spec_rgb_pack 255 0 0 := by
  have hb : ratToByte 255 = 255 := by norm_num [ratToByte]
  have h0 : ratToByte 0 = 0 := by norm_num [ratToByte]
  refine ⟨by decide, by decide, by decide, ?_⟩
  simp only [Color.to_hex, Color.new, hb, h0]
  decide

/-- Claim C10: every uniforms bundle the program constructs (sphere,
    spaceship and each planet, at any frame and with any matrices) carries
    the noise instance produced by `create_noise`, which has seed 1337 and
    the OpenSimplex2 noise type; consequently, at any fixed query
    coordinates all three bundles observe the identical noise value. -/
theorem c10_noise_uniform
    (alg2 : ℤ → NoiseType → ℚ → ℚ → ℚ) (alg3 : ℤ → NoiseType → ℚ → ℚ → ℚ → ℚ)
    (m1 m2 m3 vm pm vpm : Mat4) (t1 t2 t3 : ℕ) (mode : ℕ) :
    (uniforms_sphere alg2 alg3 m1 vm pm vpm t1).noise = create_noise alg2 alg3 ∧
    (uniforms_ship alg2 alg3 m2 vm pm vpm t2).noise = create_noise alg2 alg3 ∧
    (uniforms_planet alg2 alg3 m3 vm pm vpm t3 mode).noise = create_noise alg2 alg3 ∧
    (create_noise alg2 alg3).seed = 1337 ∧
    (create_noise alg2 alg3).noise_type = NoiseType.openSimplex2 ∧
    (∀ x y : ℚ,
      (uniforms_sphere alg2 alg3 m1 vm pm vpm t1).noise.get_noise_2d x y =
        (uniforms_ship alg2 alg3 m2 vm pm vpm t2).noise.get_noise_2d x y ∧
      (uniforms_ship alg2 alg3 m2 vm pm vpm t2).noise.get_noise_2d x y =
        (uniforms_planet alg2 alg3 m3 vm pm vpm t3 mode).noise.get_noise_2d x y) ∧
    (∀ x y z : ℚ,
      (uniforms_sphere alg2 alg3 m1 vm pm vpm t1).noise.get_noise_3d x y z =
        (uniforms_ship alg2 alg3 m2 vm pm vpm t2).noise.get_noise_3d x y z ∧
      (uniforms_ship alg2 alg3 m2 vm pm vpm t2).noise.get_noise_3d x y z =
        (uniforms_planet alg2 alg3 m3 vm pm vpm t3 mode).noise.get_noise_3d x y z) :=
  ⟨rfl, rfl, rfl, rfl, rfl, fun _ _ => ⟨rfl, rfl⟩, fun _ _ _ => ⟨rfl, rfl⟩⟩

end SpaceTravel
